import Mathlib

/-
Shallow embedding of the MeshMind-AFID C shim (src/cpp/src/core.cpp and
src/cpp/include/meshmind/core.h).

The shim wraps an external Python engine behind a C ABI.  The engine itself
is out of scope: every engine interaction in the C source is a pybind11 call
that either returns a value or raises py::error_already_set carrying a
message.  We model each such interaction as an explicit argument of type
Except String _ supplied per invocation (environment nondeterminism), and the
detector handle as an Option of an explicit state record: none models a null
MeshMindDetector pointer.

Scalars (C double) are modelled as Rat: the shim performs no arithmetic on
them, it only copies values verbatim and uses the literal 0 (via memset), so
any field with decidable equality is a faithful rendering for these claims.
Identifier strings cross the boundary as C byte strings; we model the
c_str/strncpy copy into the fixed char[256] field as take-up-to-255 of the
prefix before the first NUL character.
-/

/-- Error codes from src/cpp/include/meshmind/core.h lines 17-22. -/
def MESHMIND_SUCCESS : Int := 0

/-- Error code MESHMIND_ERROR_INIT from the header. -/
def MESHMIND_ERROR_INIT : Int := -1

/-- Error code MESHMIND_ERROR_LOAD from the header. -/
def MESHMIND_ERROR_LOAD : Int := -2

/-- Error code MESHMIND_ERROR_DETECT from the header. -/
def MESHMIND_ERROR_DETECT : Int := -3

/-- Error code MESHMIND_ERROR_EXPORT from the header. -/
def MESHMIND_ERROR_EXPORT : Int := -4

/-- Error code MESHMIND_ERROR_INVALID_PARAM from the header. -/
def MESHMIND_ERROR_INVALID_PARAM : Int := -5

/-- Version string constant MESHMIND_VERSION_STRING (core.cpp line 25). -/
def MESHMIND_VERSION_STRING : String := "1.0.0"

/-- Detection record MeshMindDetection (core.h lines 60-66): fixed-layout
value with char feature_id[256], double transform[16] (4x4 row-major),
double confidence, double position[3], double radius. -/
structure MeshMindDetection where
  feature_id : String
  transform : Fin 16 → Rat
  confidence : Rat
  position : Fin 3 → Rat
  radius : Rat

/-- Handle state MeshMindDetector_t (core.cpp lines 17-22).  The
py::scoped_interpreter guard and the py::object mesher are external
resources whose observable behavior enters through the per-call
Except-valued arguments, so only last_error and cached_detections carry
state in the model. -/
structure MeshMindDetector_t where
  last_error : String
  cached_detections : List MeshMindDetection

/-- One Python detection object as the detect loop reads it
(core.cpp lines 101-136).  Attribute accesses for feature_id, transform
and confidence may raise (they sit inside the outer try); the
region_metadata lookup is wrapped in its own catch-all try, so its entire
outcome collapses to Option Rat: some r when the metadata dict exists and
contains a "radius" key with value r, none when the key is absent or any
step of the lookup raised. -/
structure PyDetection where
  feature_id : Except String String
  transform : Except String (Fin 4 → Fin 4 → Rat)
  confidence : Except String Rat
  radius_meta : Option Rat

/-- The strncpy(dst, src.c_str(), 255) copy into the zeroed char[256]
buffer (core.cpp line 109): the stored identifier is the prefix of the
source before its first NUL byte, truncated to 255 characters; the memset
guarantees a terminator. -/
def storeFeatureId (s : String) : String :=
  ⟨(s.data.takeWhile (fun c => c != Char.ofNat 0)).take 255⟩

/-- Body of one iteration of the detect result loop (core.cpp lines
101-139): memset the record to zero, then copy feature_id, the 4x4
transform row-major (result.transform[r*4+c] = buf(r,c)), the translation
column into position, confidence, and radius from metadata when available
(otherwise the memset 0 stands). -/
def extractDetection (det : PyDetection) : Except String MeshMindDetection :=
  match det.feature_id with
  | Except.error msg => Except.error msg
  | Except.ok fid =>
    match det.transform with
    | Except.error msg => Except.error msg
    | Except.ok tf =>
      match det.confidence with
      | Except.error msg => Except.error msg
      | Except.ok conf =>
        let tfArr : Fin 16 → Rat :=
          fun k => tf ⟨k.val / 4, by omega⟩ ⟨k.val % 4, by omega⟩
        Except.ok {
          feature_id := storeFeatureId fid
          transform := tfArr
          position := fun j => tfArr ⟨4 * j.val + 3, by omega⟩
          confidence := conf
          radius := det.radius_meta.getD 0
        }

/-- The detect result loop over the first count detections (core.cpp lines
101-140): extracts records in order; on the first raised exception the
already-written records stand (they were stored into results[] and
push_back-ed into the cache before the raise) and the message propagates
to the outer catch.  Returns the list of records written in order, plus
the first raised message when one occurred. -/
def runDetectLoop : List PyDetection → List MeshMindDetection × Option String
  | [] => ([], none)
  | det :: rest =>
    match extractDetection det with
    | Except.error msg => ([], some msg)
    | Except.ok r => (r :: (runDetectLoop rest).1, (runDetectLoop rest).2)

/-- meshmind_create_detector (core.cpp lines 27-44).  initResult is the
combined outcome of starting the interpreter, importing meshmind.sdk.mesher
and constructing AutoMesher(); any raise is caught and nullptr returned.
On success last_error is set to "" and the cached detection vector is
empty (freshly constructed std::vector). -/
def meshmind_create_detector (initResult : Except String Unit) :
    Option MeshMindDetector_t :=
  match initResult with
  | Except.ok _ => some { last_error := "", cached_detections := [] }
  | Except.error _ => none

/-- meshmind_destroy_detector (core.cpp lines 46-51): deletes the guard and
the handle when non-null, does nothing on null.  The observable effect in
the model is whether any deallocation happened. -/
def meshmind_destroy_detector (detector : Option MeshMindDetector_t) : Bool :=
  match detector with
  | none => false
  | some _ => true

/-- meshmind_load_target (core.cpp lines 53-65).  Null handle or null path
give MESHMIND_ERROR_INVALID_PARAM with no state change.  Otherwise the
engine call mesher.load_target(stl_path) either succeeds (SUCCESS, state
unchanged: the success path does not touch last_error) or raises msg
(ERROR_LOAD, last_error := msg).  Returns (status, handle state after the
call). -/
def meshmind_load_target (detector : Option MeshMindDetector_t)
    (stl_path : Option String) (engineResult : Except String Unit) :
    Int × Option MeshMindDetector_t :=
  match detector, stl_path with
  | some d, some _ =>
    match engineResult with
    | Except.ok _ => (MESHMIND_SUCCESS, some d)
    | Except.error msg => (MESHMIND_ERROR_LOAD, some { d with last_error := msg })
  | _, _ => (MESHMIND_ERROR_INVALID_PARAM, detector)

/-- meshmind_add_template (core.cpp lines 67-80).  Validates only that the
handle and template_path are non-null, then returns MESHMIND_SUCCESS
having read neither the path contents nor feature_id and having performed
no engine call and no state change (the body is a stub: the comment says
it would validate the path, but no code does). -/
def meshmind_add_template (detector : Option MeshMindDetector_t)
    (template_path : Option String) (feature_id : Option String) :
    Int × Option MeshMindDetector_t :=
  match detector, template_path with
  | some d, some _ => (MESHMIND_SUCCESS, some d)
  | _, _ => (MESHMIND_ERROR_INVALID_PARAM, detector)

/-- meshmind_detect (core.cpp lines 82-148).  results_nonnull models the
results pointer being non-null.  detectionsResult is the outcome of
reading mesher.detections (line 96; a raise there happens before the cache
is cleared).  On the success path: count = min(len(detections),
max_results); the cache is cleared; the loop extracts the first count
detections, writing each record to the caller buffer and the cache; a
raise mid-loop sets last_error and returns ERROR_DETECT with the partial
writes standing.  Returns (status, new handle state, records written to
the caller buffer in order). -/
def meshmind_detect (detector : Option MeshMindDetector_t)
    (results_nonnull : Bool) (max_results : Int)
    (detectionsResult : Except String (List PyDetection)) :
    Int × Option MeshMindDetector_t × List MeshMindDetection :=
  match detector with
  | none => (MESHMIND_ERROR_INVALID_PARAM, none, [])
  | some d =>
    if results_nonnull = false ∨ max_results ≤ 0 then
      (MESHMIND_ERROR_INVALID_PARAM, some d, [])
    else
      match detectionsResult with
      | Except.error msg =>
        (MESHMIND_ERROR_DETECT, some { d with last_error := msg }, [])
      | Except.ok dets =>
        let count : Int := min (Int.ofNat dets.length) max_results
        match runDetectLoop (dets.take count.toNat) with
        | (written, some msg) =>
          (MESHMIND_ERROR_DETECT,
           some { d with last_error := msg, cached_detections := written },
           written)
        | (written, none) =>
          (count, some { d with cached_detections := written }, written)

/-- meshmind_export_snappy_dict (core.cpp lines 150-171).  After the
null checks, calls generate_refinement() then export_snappy_dict(path);
the first raise is caught, recorded in last_error, and surfaced as
MESHMIND_ERROR_EXPORT. -/
def meshmind_export_snappy_dict (detector : Option MeshMindDetector_t)
    (output_path : Option String)
    (generateResult exportResult : Except String Unit) :
    Int × Option MeshMindDetector_t :=
  match detector, output_path with
  | some d, some _ =>
    match generateResult with
    | Except.error msg => (MESHMIND_ERROR_EXPORT, some { d with last_error := msg })
    | Except.ok _ =>
      match exportResult with
      | Except.error msg => (MESHMIND_ERROR_EXPORT, some { d with last_error := msg })
      | Except.ok _ => (MESHMIND_SUCCESS, some d)
  | _, _ => (MESHMIND_ERROR_INVALID_PARAM, detector)

/-- meshmind_export_openfoam_case (core.cpp lines 173-197).  After the
null checks, calls generate_refinement(enable_mrf=...) then
export_snappy_dict(case_dir, enable_mrf); enable_mrf is forwarded to the
engine and does not otherwise affect the shim.  First raise is caught as
MESHMIND_ERROR_EXPORT with last_error set. -/
def meshmind_export_openfoam_case (detector : Option MeshMindDetector_t)
    (case_dir : Option String) (enable_mrf : Int)
    (generateResult exportResult : Except String Unit) :
    Int × Option MeshMindDetector_t :=
  match detector, case_dir with
  | some d, some _ =>
    match generateResult with
    | Except.error msg => (MESHMIND_ERROR_EXPORT, some { d with last_error := msg })
    | Except.ok _ =>
      match exportResult with
      | Except.error msg => (MESHMIND_ERROR_EXPORT, some { d with last_error := msg })
      | Except.ok _ => (MESHMIND_SUCCESS, some d)
  | _, _ => (MESHMIND_ERROR_INVALID_PARAM, detector)

/-- meshmind_export_ftetwild_sizing (core.cpp lines 199-231).  After the
null checks, the try block imports the ftetwild plugin module, constructs
the generator, reads mesher.detections, generates the config (with fixed
tunables base_size 0.1, refinement_factor 0.2) and exports it; each step
may raise and the first raise is caught as MESHMIND_ERROR_EXPORT with
last_error set. -/
def meshmind_export_ftetwild_sizing (detector : Option MeshMindDetector_t)
    (output_path : Option String)
    (importResult detectionsAccess generateResult exportResult :
      Except String Unit) :
    Int × Option MeshMindDetector_t :=
  match detector, output_path with
  | some d, some _ =>
    match importResult with
    | Except.error msg => (MESHMIND_ERROR_EXPORT, some { d with last_error := msg })
    | Except.ok _ =>
      match detectionsAccess with
      | Except.error msg => (MESHMIND_ERROR_EXPORT, some { d with last_error := msg })
      | Except.ok _ =>
        match generateResult with
        | Except.error msg => (MESHMIND_ERROR_EXPORT, some { d with last_error := msg })
        | Except.ok _ =>
          match exportResult with
          | Except.error msg => (MESHMIND_ERROR_EXPORT, some { d with last_error := msg })
          | Except.ok _ => (MESHMIND_SUCCESS, some d)
  | _, _ => (MESHMIND_ERROR_INVALID_PARAM, detector)

/-- meshmind_version (core.cpp lines 233-235): returns the static version
string; pure, no failure path. -/
def meshmind_version : String := MESHMIND_VERSION_STRING

/-- meshmind_get_error (core.cpp lines 237-242): fixed sentinel for a null
handle, otherwise the handle's last_error string. -/
def meshmind_get_error (detector : Option MeshMindDetector_t) : String :=
  match detector with
  | none => "Invalid detector handle"
  | some d => d.last_error

/-- Fresh handle state as produced by a successful meshmind_create_detector. -/
def freshDetector : MeshMindDetector_t :=
  { last_error := "", cached_detections := [] }

/-- Handle state after an engine failure recorded the message "boom". -/
def detectorAfterFailure : MeshMindDetector_t :=
  { last_error := "boom", cached_detections := [] }

/-- A concrete well-formed Python-side detection used in witnesses. -/
def samplePyDetection : PyDetection :=
  { feature_id := Except.ok "wheel"
    transform := Except.ok fun r c => if r.val = c.val then 1 else 0
    confidence := Except.ok 1
    radius_meta := none }

/-- Helper: the record extracted from samplePyDetection. -/
def sampleRecord : MeshMindDetection :=
  match extractDetection samplePyDetection with
  | Except.ok r => r
  | Except.error _ =>
    { feature_id := ""
      transform := fun _ => 0
      confidence := 0
      position := fun _ => 0
      radius := 0 }

/-- Helper: a record produced by a successful extraction has its position
equal to the translation column of its transform, a bounded identifier,
and radius 0 when the source carried no radius metadata. -/
lemma extractDetection_wf (det : PyDetection) (rec : MeshMindDetection)
    (h : extractDetection det = Except.ok rec) :
    (∀ j : Fin 3, rec.position j = rec.transform ⟨4 * j.val + 3, by omega⟩) ∧
    rec.feature_id.length ≤ 255 ∧
    (det.radius_meta = none → rec.radius = 0) := by
  obtain ⟨fid, tf, conf, rm⟩ := det
  cases fid with
  | error m => exact absurd h (by simp [extractDetection])
  | ok fid =>
    cases tf with
    | error m => exact absurd h (by simp [extractDetection])
    | ok tf =>
      cases conf with
      | error m => exact absurd h (by simp [extractDetection])
      | ok conf =>
        simp only [extractDetection, Except.ok.injEq] at h
        cases h
        refine ⟨fun j => rfl, ?_, fun hr => ?_⟩
        · simp only [storeFeatureId, String.length]
          exact List.length_take_le 255 _
        · rw [show rm = none from hr]
          rfl

/-- Helper: every record produced by the detect loop is the successful
extraction of a member of the input list. -/
lemma runDetectLoop_mem :
    ∀ (l : List PyDetection) (rec : MeshMindDetection),
      rec ∈ (runDetectLoop l).1 →
      ∃ det ∈ l, extractDetection det = Except.ok rec := by
  intro l
  induction l with
  | nil => intro rec h; simp [runDetectLoop] at h
  | cons det rest ih =>
    intro rec h
    cases hx : extractDetection det with
    | error m => rw [runDetectLoop, hx] at h; simp at h
    | ok r =>
      rw [runDetectLoop, hx] at h
      simp only [List.mem_cons] at h
      cases h with
      | inl heq => exact ⟨det, List.mem_cons_self det rest, heq ▸ hx⟩
      | inr hmem =>
        obtain ⟨det2, hd2, hx2⟩ := ih rec hmem
        exact ⟨det2, List.mem_cons_of_mem det hd2, hx2⟩

/-- Helper: when every extraction succeeds, the detect loop raises nothing
and writes one record per input, in order. -/
lemma runDetectLoop_no_raise :
    ∀ l : List PyDetection,
      (∀ det ∈ l, (extractDetection det).isOk) →
      (runDetectLoop l).2 = none ∧ (runDetectLoop l).1.length = l.length := by
  intro l
  induction l with
  | nil => intro _; exact ⟨rfl, rfl⟩
  | cons det rest ih =>
    intro hok
    have hdet : (extractDetection det).isOk := hok det (List.mem_cons_self det rest)
    cases hx : extractDetection det with
    | error m => rw [hx] at hdet; simp [Except.isOk, Except.toBool] at hdet
    | ok r =>
      have hrest := ih fun d hd => hok d (List.mem_cons_of_mem det hd)
      rw [runDetectLoop, hx]
      exact ⟨hrest.1, by simp [hrest.2]⟩

/-- Helper: whenever meshmind_detect on a valid handle returns a
nonnegative value, the resulting handle state is the input state with the
cache replaced by exactly the records written to the caller buffer. -/
lemma meshmind_detect_nonneg (d : MeshMindDetector_t) (b : Bool) (mr : Int)
    (deR : Except String (List PyDetection))
    (hn : 0 ≤ (meshmind_detect (some d) b mr deR).1) :
    (meshmind_detect (some d) b mr deR).2.1 =
      some { d with cached_detections := (meshmind_detect (some d) b mr deR).2.2 } := by
  by_cases hb : b = false ∨ mr ≤ 0
  · exfalso
    have : (meshmind_detect (some d) b mr deR).1 = MESHMIND_ERROR_INVALID_PARAM := by
      simp only [meshmind_detect, if_pos hb]
    rw [this] at hn
    norm_num [MESHMIND_ERROR_INVALID_PARAM] at hn
  · cases deR with
    | error msg =>
      exfalso
      have : (meshmind_detect (some d) b mr (Except.error msg)).1 = MESHMIND_ERROR_DETECT := by
        simp only [meshmind_detect, if_neg hb]
      rw [this] at hn
      norm_num [MESHMIND_ERROR_DETECT] at hn
    | ok dets =>
      rcases hrl : runDetectLoop
          (dets.take (min (Int.ofNat dets.length) mr).toNat) with ⟨written, raised⟩
      cases raised with
      | some msg =>
        exfalso
        have : (meshmind_detect (some d) b mr (Except.ok dets)).1 = MESHMIND_ERROR_DETECT := by
          simp only [meshmind_detect, if_neg hb, hrl]
        rw [this] at hn
        norm_num [MESHMIND_ERROR_DETECT] at hn
      | none =>
        simp only [meshmind_detect, if_neg hb, hrl]

/-- C2: passing a null detector handle to any API entry point does not
reach the engine: load_target, add_template, detect and the three exports
return MESHMIND_ERROR_INVALID_PARAM with no state change and nothing
written, destroy performs no deallocation, and meshmind_get_error returns
the fixed sentinel string instead of a code. -/
theorem C2_null_handle_safe (p f dir : Option String) (b : Bool) (mr eMrf : Int)
    (e1 : Except String Unit) (deR : Except String (List PyDetection))
    (g1 x1 g2 x2 i3 a3 g3 x3 : Except String Unit) :
    meshmind_load_target none p e1 = (MESHMIND_ERROR_INVALID_PARAM, none) ∧
    meshmind_add_template none p f = (MESHMIND_ERROR_INVALID_PARAM, none) ∧
    meshmind_detect none b mr deR = (MESHMIND_ERROR_INVALID_PARAM, none, []) ∧
    meshmind_export_snappy_dict none p g1 x1 = (MESHMIND_ERROR_INVALID_PARAM, none) ∧
    meshmind_export_openfoam_case none dir eMrf g2 x2 =
      (MESHMIND_ERROR_INVALID_PARAM, none) ∧
    meshmind_export_ftetwild_sizing none p i3 a3 g3 x3 =
      (MESHMIND_ERROR_INVALID_PARAM, none) ∧
    meshmind_destroy_detector none = false ∧
    meshmind_get_error none = "Invalid detector handle" := by
  refine ⟨?_, ?_, rfl, ?_, ?_, ?_, rfl, rfl⟩ <;> cases p <;> cases dir <;> rfl

/-- C4: on a valid handle with a non-null template path,
meshmind_add_template returns the success code 0 while changing nothing:
the handle state is returned untouched, the result does not depend on the
feature identifier, and a subsequent detect call behaves exactly as if
add_template had never been called, so detection cannot reflect the
registered template (the function performs no path validation and no
engine call: its embedding takes no engine argument at all). -/
theorem C4_add_template_stub (d : MeshMindDetector_t) (p : String)
    (fid : Option String) (b : Bool) (mr : Int)
    (deR : Except String (List PyDetection)) :
    meshmind_add_template (some d) (some p) fid = (MESHMIND_SUCCESS, some d) ∧
    MESHMIND_SUCCESS = 0 ∧
    meshmind_detect (meshmind_add_template (some d) (some p) fid).2 b mr deR =
      meshmind_detect (some d) b mr deR := ⟨rfl, rfl, rfl⟩

/-- C8: meshmind_version is a pure constant: it takes no arguments, has no
failure path, and is the static literal "1.0.0" (the value of
MESHMIND_VERSION_STRING), hence identical on every call. -/
theorem C8_version_constant :
    meshmind_version = "1.0.0" ∧ meshmind_version = MESHMIND_VERSION_STRING :=
  ⟨rfl, rfl⟩

/-- C10: meshmind_add_template never inspects feature_id: with a valid
handle and non-null template path, a null feature_id still yields the
success code 0 (not MESHMIND_ERROR_INVALID_PARAM), and the result is
identical for any two feature_id arguments. -/
theorem C10_feature_id_ignored (d : MeshMindDetector_t) (p : String) :
    meshmind_add_template (some d) (some p) none = (MESHMIND_SUCCESS, some d) ∧
    MESHMIND_SUCCESS ≠ MESHMIND_ERROR_INVALID_PARAM ∧
    ∀ fid fid2 : Option String,
      meshmind_add_template (some d) (some p) fid =
        meshmind_add_template (some d) (some p) fid2 := by
  refine ⟨rfl, by decide, fun fid fid2 => rfl⟩

/-- C9: whenever meshmind_detect on a valid handle returns a nonnegative
count, the new handle state exists, its cached detection list is exactly
the list of records written to the caller buffer (same records, same
order, previous cache fully replaced), and its last-error string is
untouched. -/
theorem C9_cache_equals_buffer (d : MeshMindDetector_t) (b : Bool) (mr : Int)
    (deR : Except String (List PyDetection))
    (hn : 0 ≤ (meshmind_detect (some d) b mr deR).1) :
    ∃ d2 : MeshMindDetector_t,
      (meshmind_detect (some d) b mr deR).2.1 = some d2 ∧
      d2.cached_detections = (meshmind_detect (some d) b mr deR).2.2 ∧
      d2.last_error = d.last_error :=
  ⟨{ d with cached_detections := (meshmind_detect (some d) b mr deR).2.2 },
   meshmind_detect_nonneg d b mr deR hn, rfl, rfl⟩

/-- Witness for C9 at a concrete input: a fresh handle, capacity 5 and one
engine detection give return value 1 ≥ 0, and the cache then equals the
single written record. -/
theorem C9_cache_equals_buffer_witness :
    ∃ d2 : MeshMindDetector_t,
      (meshmind_detect (some freshDetector) true 5
        (Except.ok [samplePyDetection])).2.1 = some d2 ∧
      d2.cached_detections =
        (meshmind_detect (some freshDetector) true 5
          (Except.ok [samplePyDetection])).2.2 ∧
      d2.last_error = freshDetector.last_error :=
  C9_cache_equals_buffer freshDetector true 5 (Except.ok [samplePyDetection])
    (by decide)

/-- C1 counterexample: with a valid handle, a non-null buffer, true match
count m = 1 and caller capacity c = 0, meshmind_detect returns
MESHMIND_ERROR_INVALID_PARAM, a negative error code, instead of
min(c, m) = 0: the source rejects max_results <= 0 up front, so the claim
fails at c = 0. -/
theorem C1_counterexample :
    (meshmind_detect (some freshDetector) true 0
      (Except.ok [samplePyDetection])).1 = MESHMIND_ERROR_INVALID_PARAM ∧
    (meshmind_detect (some freshDetector) true 0
      (Except.ok [samplePyDetection])).1 < 0 ∧
    (meshmind_detect (some freshDetector) true 0
      (Except.ok [samplePyDetection])).1 ≠
      ((min [samplePyDetection].length (0 : Int).toNat : Nat) : Int) := by
  refine ⟨by decide, by decide, by decide⟩

/-- C1 (amended): for every valid handle, non-null buffer, capacity c ≥ 1
and true engine match count m (all extractions succeeding),
meshmind_detect returns min(c, m) = the number of records written, the
count is nonnegative and never exceeds c (a capacity smaller than m is
silent truncation, not an error), and nothing is written when m = 0. -/
theorem C1_detect_truncation (d : MeshMindDetector_t) (max_results : Int)
    (dets : List PyDetection) (hc : 1 ≤ max_results)
    (hok : ∀ det ∈ dets, (extractDetection det).isOk) :
    (meshmind_detect (some d) true max_results (Except.ok dets)).1 =
      ((min dets.length max_results.toNat : Nat) : Int) ∧
    (meshmind_detect (some d) true max_results (Except.ok dets)).2.2.length =
      min dets.length max_results.toNat ∧
    0 ≤ (meshmind_detect (some d) true max_results (Except.ok dets)).1 ∧
    (meshmind_detect (some d) true max_results (Except.ok dets)).1 ≤ max_results ∧
    (dets.length = 0 →
      (meshmind_detect (some d) true max_results (Except.ok dets)).2.2 = []) := by
  have hb : ¬ ((true : Bool) = false ∨ max_results ≤ 0) := by
    rintro (h | h)
    · simp at h
    · omega
  have hsub : ∀ det ∈ dets.take (min (Int.ofNat dets.length) max_results).toNat,
      (extractDetection det).isOk := fun det hd => hok det (List.take_subset _ _ hd)
  have hloop := runDetectLoop_no_raise _ hsub
  rcases hrl : runDetectLoop
      (dets.take (min (Int.ofNat dets.length) max_results).toNat)
    with ⟨written, raised⟩
  rw [hrl] at hloop
  obtain ⟨hraised, hlen⟩ := hloop
  cases raised with
  | some m => simp at hraised
  | none =>
    have hres : meshmind_detect (some d) true max_results (Except.ok dets) =
        (min (Int.ofNat dets.length) max_results,
         some { d with cached_detections := written }, written) := by
      simp only [meshmind_detect, if_neg hb, hrl]
    have h1 : (meshmind_detect (some d) true max_results (Except.ok dets)).1 =
        min (Int.ofNat dets.length) max_results := by rw [hres]
    have h2 : (meshmind_detect (some d) true max_results (Except.ok dets)).2.2 =
        written := by rw [hres]
    simp only [List.length_take] at hlen
    simp only [Int.ofNat_eq_coe] at h1
    rw [h1, h2]
    simp only [Int.ofNat_eq_coe] at hlen
    refine ⟨by omega, by omega, by omega, by omega, fun h0 => ?_⟩
    exact List.length_eq_zero.mp (by omega)

/-- Witness for C1 (amended) at capacity 2 and one well-formed engine
detection: the call returns min(2, 1) = 1 and writes one record. -/
theorem C1_detect_truncation_witness :
    (meshmind_detect (some freshDetector) true 2
      (Except.ok [samplePyDetection])).1 =
      ((min [samplePyDetection].length (2 : Int).toNat : Nat) : Int) ∧
    (meshmind_detect (some freshDetector) true 2
      (Except.ok [samplePyDetection])).2.2.length =
      min [samplePyDetection].length (2 : Int).toNat ∧
    0 ≤ (meshmind_detect (some freshDetector) true 2
      (Except.ok [samplePyDetection])).1 ∧
    (meshmind_detect (some freshDetector) true 2
      (Except.ok [samplePyDetection])).1 ≤ 2 ∧
    ([samplePyDetection].length = 0 →
      (meshmind_detect (some freshDetector) true 2
        (Except.ok [samplePyDetection])).2.2 = []) :=
  C1_detect_truncation freshDetector 2 [samplePyDetection] (by decide) (by decide)

/-- C3 counterexample: start from a fresh handle, fail load_target with an
engine raise carrying "boom", then run a load_target that succeeds; the
most recent operation succeeded, yet meshmind_get_error still returns
"boom" (non-empty): success does not clear the last-error string. -/
theorem C3_counterexample :
    (meshmind_load_target (some freshDetector) (some "missing.stl")
      (Except.error "boom")).1 = MESHMIND_ERROR_LOAD ∧
    (meshmind_load_target
      (meshmind_load_target (some freshDetector) (some "missing.stl")
        (Except.error "boom")).2
      (some "target.stl") (Except.ok ())).1 = MESHMIND_SUCCESS ∧
    meshmind_get_error
      (meshmind_load_target
        (meshmind_load_target (some freshDetector) (some "missing.stl")
          (Except.error "boom")).2
        (some "target.stl") (Except.ok ())).2 = "boom" ∧
    ("boom" : String) ≠ "" := by
  refine ⟨rfl, rfl, rfl, by decide⟩

/-- C3 (amended): meshmind_get_error on a valid handle returns the stored
last-error string, and successful operations return the handle state with
that string unchanged (it is never cleared after creation), so after a
success the accessor still reports the most recently recorded failure
detail; the string is empty only when no failure has been recorded since
creation. -/
theorem C3_get_error_reports_stored (d : MeshMindDetector_t) (p : String)
    (fid : Option String) (mrf : Int) :
    meshmind_get_error (some d) = d.last_error ∧
    (meshmind_load_target (some d) (some p) (Except.ok ())).2 = some d ∧
    (meshmind_add_template (some d) (some p) fid).2 = some d ∧
    (meshmind_export_snappy_dict (some d) (some p)
      (Except.ok ()) (Except.ok ())).2 = some d ∧
    (meshmind_export_openfoam_case (some d) (some p) mrf
      (Except.ok ()) (Except.ok ())).2 = some d ∧
    (meshmind_export_ftetwild_sizing (some d) (some p) (Except.ok ())
      (Except.ok ()) (Except.ok ()) (Except.ok ())).2 = some d ∧
    (meshmind_detect (some d) true 1 (Except.ok [])).2.1 =
      some { d with cached_detections := [] } ∧
    ({ d with cached_detections := ([] : List MeshMindDetection) }
      : MeshMindDetector_t).last_error = d.last_error :=
  ⟨rfl, rfl, rfl, rfl, rfl, rfl, rfl, rfl⟩

/-- C5: engine raises map to the fixed taxonomy: a raising load_target
returns -2, a raising detect returns -3, any raising step of the three
exports returns -4, in every case recording the raised message as the
handle's last-error string so meshmind_get_error retrieves it afterwards
(non-empty since the message is); the header constants are InitFailure
-1, LoadFailure -2, DetectFailure -3, ExportFailure -4, InvalidParameter
-5.  In particular load_target whose engine call raises (e.g. on a
nonexistent path) returns a negative status and a non-empty error string
thereafter. -/
theorem C5_engine_raise_taxonomy (d : MeshMindDetector_t) (p dir : String)
    (mrf mr : Int) (msg : String) (x : Except String Unit)
    (hmr : 1 ≤ mr) (hmsg : msg ≠ "") :
    meshmind_load_target (some d) (some p) (Except.error msg) =
      (MESHMIND_ERROR_LOAD, some { d with last_error := msg }) ∧
    meshmind_detect (some d) true mr (Except.error msg) =
      (MESHMIND_ERROR_DETECT, some { d with last_error := msg }, []) ∧
    meshmind_export_snappy_dict (some d) (some p) (Except.error msg) x =
      (MESHMIND_ERROR_EXPORT, some { d with last_error := msg }) ∧
    meshmind_export_snappy_dict (some d) (some p) (Except.ok ())
        (Except.error msg) =
      (MESHMIND_ERROR_EXPORT, some { d with last_error := msg }) ∧
    meshmind_export_openfoam_case (some d) (some dir) mrf (Except.error msg) x =
      (MESHMIND_ERROR_EXPORT, some { d with last_error := msg }) ∧
    meshmind_export_ftetwild_sizing (some d) (some p) (Except.error msg) x x x =
      (MESHMIND_ERROR_EXPORT, some { d with last_error := msg }) ∧
    meshmind_export_ftetwild_sizing (some d) (some p) (Except.ok ())
        (Except.ok ()) (Except.ok ()) (Except.error msg) =
      (MESHMIND_ERROR_EXPORT, some { d with last_error := msg }) ∧
    meshmind_get_error (some { d with last_error := msg }) = msg ∧
    meshmind_get_error (some { d with last_error := msg }) ≠ "" ∧
    MESHMIND_ERROR_LOAD < 0 ∧
    (MESHMIND_ERROR_INIT = -1 ∧ MESHMIND_ERROR_LOAD = -2 ∧
     MESHMIND_ERROR_DETECT = -3 ∧ MESHMIND_ERROR_EXPORT = -4 ∧
     MESHMIND_ERROR_INVALID_PARAM = -5) := by
  have hb : ¬ ((true : Bool) = false ∨ mr ≤ 0) := by
    rintro (h | h)
    · simp at h
    · omega
  refine ⟨rfl, ?_, rfl, rfl, rfl, rfl, rfl, rfl, hmsg, by decide,
    by decide, by decide, by decide, by decide, by decide⟩
  simp only [meshmind_detect, if_neg hb]

/-- Witness for C5 at a concrete input: capacity 1 and raised message
"boom". -/
theorem C5_engine_raise_taxonomy_witness :
    meshmind_load_target (some freshDetector) (some "missing.stl")
      (Except.error "boom") =
      (MESHMIND_ERROR_LOAD, some { freshDetector with last_error := "boom" }) ∧
    meshmind_detect (some freshDetector) true 1 (Except.error "boom") =
      (MESHMIND_ERROR_DETECT,
       some { freshDetector with last_error := "boom" }, []) ∧
    meshmind_export_snappy_dict (some freshDetector) (some "out.dict")
        (Except.error "boom") (Except.ok ()) =
      (MESHMIND_ERROR_EXPORT, some { freshDetector with last_error := "boom" }) ∧
    meshmind_export_snappy_dict (some freshDetector) (some "out.dict")
        (Except.ok ()) (Except.error "boom") =
      (MESHMIND_ERROR_EXPORT, some { freshDetector with last_error := "boom" }) ∧
    meshmind_export_openfoam_case (some freshDetector) (some "case") 1
        (Except.error "boom") (Except.ok ()) =
      (MESHMIND_ERROR_EXPORT, some { freshDetector with last_error := "boom" }) ∧
    meshmind_export_ftetwild_sizing (some freshDetector) (some "out.json")
        (Except.error "boom") (Except.ok ()) (Except.ok ()) (Except.ok ()) =
      (MESHMIND_ERROR_EXPORT, some { freshDetector with last_error := "boom" }) ∧
    meshmind_export_ftetwild_sizing (some freshDetector) (some "out.json")
        (Except.ok ()) (Except.ok ()) (Except.ok ()) (Except.error "boom") =
      (MESHMIND_ERROR_EXPORT, some { freshDetector with last_error := "boom" }) ∧
    meshmind_get_error (some { freshDetector with last_error := "boom" }) =
      "boom" ∧
    meshmind_get_error (some { freshDetector with last_error := "boom" }) ≠ "" ∧
    MESHMIND_ERROR_LOAD < 0 ∧
    (MESHMIND_ERROR_INIT = -1 ∧ MESHMIND_ERROR_LOAD = -2 ∧
     MESHMIND_ERROR_DETECT = -3 ∧ MESHMIND_ERROR_EXPORT = -4 ∧
     MESHMIND_ERROR_INVALID_PARAM = -5) :=
  C5_engine_raise_taxonomy freshDetector "missing.stl" "case" 1 1 "boom"
    (Except.ok ()) (by decide) (by decide)

/-- C6: every record written to the caller buffer by meshmind_detect is
the successful extraction of one of the engine's detection objects, and
is well-formed per the fixed layout: its position 3-vector equals the
translation column of its row-major 4x4 transform
(position[k] = transform[4k+3] for k in 0, 1, 2), its identifier fits the
char[256] field (at most 255 characters before the guaranteed
terminator), and its radius is 0 whenever the engine detection carried no
radius metadata. -/
theorem C6_written_records_wellformed (d : MeshMindDetector_t) (mr : Int)
    (dets : List PyDetection) (rec : MeshMindDetection)
    (hmem : rec ∈ (meshmind_detect (some d) true mr (Except.ok dets)).2.2) :
    ∃ det ∈ dets, extractDetection det = Except.ok rec ∧
      (∀ j : Fin 3, rec.position j = rec.transform ⟨4 * j.val + 3, by omega⟩) ∧
      rec.feature_id.length ≤ 255 ∧
      (det.radius_meta = none → rec.radius = 0) := by
  by_cases hb : (true : Bool) = false ∨ mr ≤ 0
  · rw [show (meshmind_detect (some d) true mr (Except.ok dets)).2.2 = [] from by
      simp only [meshmind_detect, if_pos hb]] at hmem
    simp at hmem
  · rcases hrl : runDetectLoop
        (dets.take (min (Int.ofNat dets.length) mr).toNat)
      with ⟨written, raised⟩
    have hw : (meshmind_detect (some d) true mr (Except.ok dets)).2.2 =
        written := by
      cases raised <;> simp only [meshmind_detect, if_neg hb, hrl]
    rw [hw] at hmem
    have hmem2 : rec ∈
        (runDetectLoop (dets.take (min (Int.ofNat dets.length) mr).toNat)).1 := by
      rw [hrl]; exact hmem
    obtain ⟨det, hdet, hex⟩ := runDetectLoop_mem _ rec hmem2
    obtain ⟨hpos, hlen, hrad⟩ := extractDetection_wf det rec hex
    exact ⟨det, List.take_subset _ _ hdet, hex, hpos, hlen, hrad⟩

/-- Witness for C6 at a concrete input: the single record written for one
engine detection is well-formed. -/
theorem C6_written_records_wellformed_witness :
    ∃ det ∈ [samplePyDetection], extractDetection det = Except.ok sampleRecord ∧
      (∀ j : Fin 3, sampleRecord.position j =
        sampleRecord.transform ⟨4 * j.val + 3, by omega⟩) ∧
      sampleRecord.feature_id.length ≤ 255 ∧
      (det.radius_meta = none → sampleRecord.radius = 0) :=
  C6_written_records_wellformed freshDetector 1 [samplePyDetection] sampleRecord
    (List.mem_singleton_self sampleRecord)

/-- C7 counterexample: on a handle whose last-error string is "boom", a
failing call - load_target with a null path, which returns
MESHMIND_ERROR_INVALID_PARAM - leaves the last-error string untouched at
"boom" instead of overwriting it with this call's failure detail; on a
fresh handle the same failing call leaves the string empty. -/
theorem C7_counterexample :
    (meshmind_load_target (some detectorAfterFailure) none (Except.ok ())).1 =
      MESHMIND_ERROR_INVALID_PARAM ∧
    MESHMIND_ERROR_INVALID_PARAM ≠ MESHMIND_SUCCESS ∧
    (meshmind_load_target (some detectorAfterFailure) none (Except.ok ())).2 =
      some detectorAfterFailure ∧
    meshmind_get_error
      (meshmind_load_target (some detectorAfterFailure) none
        (Except.ok ())).2 = "boom" ∧
    meshmind_get_error
      (meshmind_load_target (some freshDetector) none (Except.ok ())).2 = "" := by
  refine ⟨rfl, by decide, rfl, rfl, rfl⟩

/-- C7 (amended): per handle there is exactly one last-error string:
successful creation sets it to the empty string (so a fresh handle
reports ""); each call that fails with an engine-raised error overwrites
it with the raised message; calls that fail parameter validation return
MESHMIND_ERROR_INVALID_PARAM but leave the string unchanged. -/
theorem C7_last_error_discipline (d : MeshMindDetector_t) (p msg : String)
    (fid : Option String) (mrf : Int) (e : Except String Unit) :
    meshmind_create_detector (Except.ok ()) =
      some { last_error := "", cached_detections := [] } ∧
    meshmind_get_error (meshmind_create_detector (Except.ok ())) = "" ∧
    (meshmind_load_target (some d) (some p) (Except.error msg)).2 =
      some { d with last_error := msg } ∧
    (meshmind_detect (some d) true 1 (Except.error msg)).2.1 =
      some { d with last_error := msg } ∧
    (meshmind_export_snappy_dict (some d) (some p) (Except.error msg) e).2 =
      some { d with last_error := msg } ∧
    (meshmind_export_openfoam_case (some d) (some p) mrf
      (Except.error msg) e).2 = some { d with last_error := msg } ∧
    (meshmind_export_ftetwild_sizing (some d) (some p)
      (Except.error msg) e e e).2 = some { d with last_error := msg } ∧
    (meshmind_load_target (some d) none e).1 = MESHMIND_ERROR_INVALID_PARAM ∧
    (meshmind_load_target (some d) none e).2 = some d ∧
    (meshmind_add_template (some d) none fid).2 = some d :=
  ⟨rfl, rfl, rfl, rfl, rfl, rfl, rfl, rfl, rfl, rfl⟩
